import Mathlib

/-!
Shallow embedding of `tarot_copilot.py`: a tarot-reading program consisting of
a deck/session manager (`TarotSession` with `reset_deck` and `draw_cards`),
an interpretation lookup (`interpret_card` plus three per-card table lookups),
and a reading assembler (`create_reading`).

Randomness (`secrets.choice`) is modelled by an explicit oracle
`rand : Nat → Nat × Nat` supplying, for each loop iteration, the random index
used to choose a card from the remaining deck and the random index used to
choose the orientation.  The Python dictionaries loaded from JSON files are
modelled as association lists passed explicitly (they are data, not code, of
the repository).
-/

namespace TarotCopilot

/-- A single-quote character, used in the layout-not-defined error message. -/
def sq : String := String.singleton (Char.ofNat 39)

/-- The full 78-card deck literal from `TarotSession.reset_deck`
(22 major arcana followed by 56 minor arcana). -/
def fullDeck : List String :=
  ["The Fool", "The Magician", "The High Priestess", "The Empress", "The Emperor",
   "The Hierophant", "The Lovers", "The Chariot", "Strength", "The Hermit",
   "Wheel of Fortune", "Justice", "The Hanged Man", "Death", "Temperance",
   "The Devil", "The Tower", "The Star", "The Moon", "The Sun",
   "Judgement", "The World", "Ace of Wands", "Two of Wands", "Three of Wands",
   "Four of Wands", "Five of Wands", "Six of Wands", "Seven of Wands", "Eight of Wands",
   "Nine of Wands", "Ten of Wands", "Page of Wands", "Knight of Wands", "Queen of Wands",
   "King of Wands", "Ace of Cups", "Two of Cups", "Three of Cups", "Four of Cups",
   "Five of Cups", "Six of Cups", "Seven of Cups", "Eight of Cups", "Nine of Cups",
   "Ten of Cups", "Page of Cups", "Knight of Cups", "Queen of Cups", "King of Cups",
   "Ace of Swords", "Two of Swords", "Three of Swords", "Four of Swords", "Five of Swords",
   "Six of Swords", "Seven of Swords", "Eight of Swords", "Nine of Swords", "Ten of Swords",
   "Page of Swords", "Knight of Swords", "Queen of Swords", "King of Swords",
   "Ace of Pentacles", "Two of Pentacles", "Three of Pentacles", "Four of Pentacles",
   "Five of Pentacles", "Six of Pentacles", "Seven of Pentacles", "Eight of Pentacles",
   "Nine of Pentacles", "Ten of Pentacles", "Page of Pentacles", "Knight of Pentacles",
   "Queen of Pentacles", "King of Pentacles"]

/-- Session state of `TarotSession`: the remaining deck and the drawn history,
each as in the Python object (`self.deck`, `self.drawn_cards`).  Orientations
are the strings "Upright" and "Reversed", as in the source. -/
structure TarotSession where
  deck : List String
  drawn_cards : List (String × String)
deriving Repr, DecidableEq

/-- `TarotSession.reset_deck`: reinitializes the deck to the full 78-card list
and clears the drawn history.  The prior state is ignored. -/
def reset_deck (_s : TarotSession) : TarotSession :=
  { deck := fullDeck, drawn_cards := [] }

/-- `TarotSession.__init__` simply calls `reset_deck`. -/
def initialSession : TarotSession :=
  reset_deck { deck := [], drawn_cards := [] }

/-- `list.remove(x)` from Python: remove the first occurrence of `c`. -/
def removeFirst : List String → String → List String
  | [], _ => []
  | x :: xs, c => if x = c then xs else x :: removeFirst xs c

/-- `secrets.choice(deck)` modelled with an explicit random index `k`:
pick the element at position `k % len(deck)`.  Only used on a nonempty deck
(the source checks `len(self.deck) == 0` first), so the default is never hit. -/
def chooseCard (deck : List String) (k : Nat) : String :=
  deck.getD (k % deck.length) ""

/-- The two-element orientation list from the source. -/
def orientations : List String := ["Upright", "Reversed"]

/-- `secrets.choice(["Upright", "Reversed"])` with explicit random index `k`. -/
def chooseOrientation (k : Nat) : String :=
  orientations.getD (k % 2) ""

/-- `TarotSession.draw_cards(number_of_cards)` with the count as a `Nat`
(the loop `for _ in range(n)` iterates `max n 0` times; see `draw_cards_int`
for the `int`-typed entry point).  Each iteration: if the deck is empty, stop
early; otherwise choose a card at random, remove it from the deck, choose an
orientation at random, and append the pair to both the returned list and the
drawn history.  `rand i` supplies the two random indices of iteration `i`. -/
def draw_cards : TarotSession → Nat → (Nat → Nat × Nat) → List (String × String) × TarotSession
  | s, 0, _ => ([], s)
  | s, n + 1, rand =>
    if s.deck.length = 0 then ([], s)
    else
      let card := chooseCard s.deck (rand 0).1
      let orientation := chooseOrientation (rand 0).2
      let s1 : TarotSession :=
        { deck := removeFirst s.deck card,
          drawn_cards := s.drawn_cards ++ [(card, orientation)] }
      let r := draw_cards s1 n (fun j => rand (j + 1))
      ((card, orientation) :: r.1, r.2)

/-- `draw_cards` at the Python signature, where `number_of_cards` is an `int`:
`range(n)` performs no iterations when `n ≤ 0`. -/
def draw_cards_int (s : TarotSession) (n : Int) (rand : Nat → Nat × Nat) :
    List (String × String) × TarotSession :=
  draw_cards s n.toNat rand

/-- A spread layout: the `positions` list of a layout entry in
`spread_layouts.json`. -/
structure Layout where
  positions : List String
deriving Repr, DecidableEq

/-- The five reference tables loaded from JSON files at startup, modelled as
association lists: `tarot_card_meanings` maps a card to an inner
orientation-to-text table; the other three text tables are keyed by card
alone; `spread_layouts` maps a layout name to its layout. -/
structure Tables where
  tarot_card_meanings : List (String × List (String × String))
  spread_layouts : List (String × Layout)
  numerology_data : List (String × String)
  color_theory_data : List (String × String)
  hidden_meanings_data : List (String × String)

/-- `interpret_card(card, orientation)`:
`tarot_card_meanings.get(card, {}).get(orientation, "No meaning found.")`. -/
def interpret_card (meanings : List (String × List (String × String)))
    (card orientation : String) : String :=
  (((meanings.lookup card).getD []).lookup orientation).getD "No meaning found."

/-- `hidden_meanings_data.get(card, "No hidden symbols found.")`. -/
def hiddenSymbolsOf (T : Tables) (card : String) : String :=
  (T.hidden_meanings_data.lookup card).getD "No hidden symbols found."

/-- `numerology_data.get(card, "No numerology found.")`. -/
def numerologyOf (T : Tables) (card : String) : String :=
  (T.numerology_data.lookup card).getD "No numerology found."

/-- `color_theory_data.get(card, "No color theory found.")`. -/
def colorTheoryOf (T : Tables) (card : String) : String :=
  (T.color_theory_data.lookup card).getD "No color theory found."

/-- One record of a reading: the dict appended per card in `create_reading`. -/
structure ReadingEntry where
  position : String
  card : String
  orientation : String
  meaning : String
  hiddenSymbols : String
  numerology : String
  colorTheory : String
deriving Repr, DecidableEq

instance : Inhabited ReadingEntry :=
  ⟨{ position := "", card := "", orientation := "", meaning := "",
     hiddenSymbols := "", numerology := "", colorTheory := "" }⟩

/-- The record built for position label `pos` and drawn pair `p` in the loop
body of `create_reading`. -/
def readingEntry (T : Tables) (pos : String) (p : String × String) : ReadingEntry :=
  { position := pos,
    card := p.1,
    orientation := p.2,
    meaning := interpret_card T.tarot_card_meanings p.1 p.2,
    hiddenSymbols := hiddenSymbolsOf T p.1,
    numerology := numerologyOf T p.1,
    colorTheory := colorTheoryOf T p.1 }

/-- Error message of `raise ValueError(f"Layout \x7blayout_name\x7d is not defined.")`
(the layout name is wrapped in single quotes in the source). -/
def layoutNotDefinedMsg (layout_name : String) : String :=
  "Layout " ++ sq ++ layout_name ++ sq ++ " is not defined."

/-- Error message of the count-mismatch `ValueError`: the f-string interpolates
the layout name and the required (expected) position count. -/
def countMismatchMsg (layout_name : String) (expected : Nat) : String :=
  layout_name ++ " layout requires exactly " ++ toString expected ++ " cards."

/-- `create_reading(drawn_cards, layout_name)`: look up the layout (failing if
absent), check the drawn-card count against the position count (failing on
mismatch), then build one record per index, pairing the position label at
index `i` with the drawn pair at index `i`.  The source indexes
`layout["positions"][i]` inside `enumerate(drawn_cards)`; after the length
guard the two lists have equal length, so this is `zipWith`. -/
def create_reading (T : Tables) (drawn_cards : List (String × String))
    (layout_name : String) : Except String (List ReadingEntry) :=
  match T.spread_layouts.lookup layout_name with
  | none => Except.error (layoutNotDefinedMsg layout_name)
  | some layout =>
    if drawn_cards.length ≠ layout.positions.length then
      Except.error (countMismatchMsg layout_name layout.positions.length)
    else
      Except.ok (List.zipWith (readingEntry T) layout.positions drawn_cards)

/-- Run a sequence of `draw_cards` calls (each with its request size and its
randomness oracle) against a session, with no intervening reset. -/
def runDraws : TarotSession → List (Nat × (Nat → Nat × Nat)) → TarotSession
  | s, [] => s
  | s, q :: rest => runDraws (draw_cards s q.1 q.2).2 rest

/-- The states reachable from a fresh (`__init__`) or freshly reset session by
any sequence of `draw_cards` calls. -/
inductive Reachable : TarotSession → Prop
  | init : Reachable initialSession
  | reset (s : TarotSession) : Reachable (reset_deck s)
  | draw (s : TarotSession) (n : Nat) (rand : Nat → Nat × Nat) :
      Reachable s → Reachable (draw_cards s n rand).2

/-- Session invariant: the drawn card identifiers together with the remaining
deck form a duplicate-free list, and deck plus history account for all 78
cards. -/
def Inv (s : TarotSession) : Prop :=
  (s.drawn_cards.map Prod.fst ++ s.deck).Nodup ∧
    s.deck.length + s.drawn_cards.length = 78

/-! ### Helper lemmas -/

theorem removeFirst_perm {l : List String} {c : String} (h : c ∈ l) :
    (c :: removeFirst l c).Perm l := by
  induction l with
  | nil => cases h
  | cons x xs ih =>
    by_cases hx : x = c
    · subst hx
      simp [removeFirst]
    · have hc : c ∈ xs := by
        rcases List.mem_cons.mp h with h1 | h1
        · exact absurd h1.symm hx
        · exact h1
      simp only [removeFirst, if_neg hx]
      exact (List.Perm.swap x c (removeFirst xs c)).trans ((ih hc).cons x)

theorem removeFirst_length {l : List String} {c : String} (h : c ∈ l) :
    (removeFirst l c).length + 1 = l.length := by
  have hp := (removeFirst_perm h).length_eq
  simpa using hp

theorem chooseCard_mem (deck : List String) (k : Nat) (h : deck ≠ []) :
    chooseCard deck k ∈ deck := by
  have hlen : 0 < deck.length := List.length_pos.mpr h
  have hk : k % deck.length < deck.length := Nat.mod_lt _ hlen
  unfold chooseCard
  rw [List.getD_eq_getElem _ _ hk]
  exact List.getElem_mem hk

theorem chooseOrientation_eq (k : Nat) :
    chooseOrientation k = "Upright" ∨ chooseOrientation k = "Reversed" := by
  rcases Nat.mod_two_eq_zero_or_one k with h | h <;>
    simp [chooseOrientation, orientations, h]

/-- Combined behavioural lemma for one `draw_cards` call: the final history is
the prior history followed by the returned pairs; the returned card
identifiers together with the final deck are a permutation of the prior deck;
the number of returned pairs is `min n (length of the prior deck)`; and every
returned orientation is Upright or Reversed. -/
theorem draw_cards_spec (n : Nat) (s : TarotSession) (rand : Nat → Nat × Nat) :
    (draw_cards s n rand).2.drawn_cards = s.drawn_cards ++ (draw_cards s n rand).1 ∧
    ((draw_cards s n rand).1.map Prod.fst ++ (draw_cards s n rand).2.deck).Perm s.deck ∧
    (draw_cards s n rand).1.length = min n s.deck.length ∧
    ∀ p ∈ (draw_cards s n rand).1, p.2 = "Upright" ∨ p.2 = "Reversed" := by
  induction n generalizing s rand with
  | zero => simp [draw_cards]
  | succ n ih =>
    by_cases hd : s.deck.length = 0
    · simp [draw_cards, hd]
    · have hne : s.deck ≠ [] := by
        intro h
        exact hd (by simp [h])
      have hmem : chooseCard s.deck (rand 0).1 ∈ s.deck := chooseCard_mem _ _ hne
      have heq : draw_cards s (n + 1) rand =
          ((chooseCard s.deck (rand 0).1, chooseOrientation (rand 0).2) ::
              (draw_cards
                { deck := removeFirst s.deck (chooseCard s.deck (rand 0).1),
                  drawn_cards := s.drawn_cards ++
                    [(chooseCard s.deck (rand 0).1, chooseOrientation (rand 0).2)] }
                n (fun j => rand (j + 1))).1,
            (draw_cards
                { deck := removeFirst s.deck (chooseCard s.deck (rand 0).1),
                  drawn_cards := s.drawn_cards ++
                    [(chooseCard s.deck (rand 0).1, chooseOrientation (rand 0).2)] }
                n (fun j => rand (j + 1))).2) := by
        simp [draw_cards, hd]
      obtain ⟨ih1, ih2, ih3, ih4⟩ := ih
        { deck := removeFirst s.deck (chooseCard s.deck (rand 0).1),
          drawn_cards := s.drawn_cards ++
            [(chooseCard s.deck (rand 0).1, chooseOrientation (rand 0).2)] }
        (fun j => rand (j + 1))
      rw [heq]
      refine ⟨?_, ?_, ?_, ?_⟩
      · rw [ih1]
        simp
      · simp only [List.map_cons, List.cons_append]
        exact (ih2.cons _).trans (removeFirst_perm hmem)
      · have hlen := removeFirst_length hmem
        simp only [List.length_cons, ih3]
        simp only at hlen ⊢
        omega
      · intro p hp
        rcases List.mem_cons.mp hp with h1 | h1
        · rw [h1]
          exact chooseOrientation_eq (rand 0).2
        · exact ih4 p h1

theorem Inv_draw (s : TarotSession) (n : Nat) (rand : Nat → Nat × Nat) (h : Inv s) :
    Inv (draw_cards s n rand).2 := by
  obtain ⟨h1, h2⟩ := h
  obtain ⟨d1, d2, d3, _⟩ := draw_cards_spec n s rand
  constructor
  · rw [d1, List.map_append, List.append_assoc]
    exact ((List.Perm.append_left (s.drawn_cards.map Prod.fst) d2).nodup_iff).mpr h1
  · have hl := d2.length_eq
    rw [d1]
    simp only [List.length_append, List.length_map] at hl ⊢
    omega

theorem Inv_initial : Inv initialSession := by
  constructor
  · show ((List.map Prod.fst [] : List String) ++ fullDeck).Nodup
    simp only [List.map_nil, List.nil_append]
    decide
  · decide

theorem reachable_inv {s : TarotSession} (h : Reachable s) : Inv s := by
  induction h with
  | init => exact Inv_initial
  | reset s => exact Inv_initial
  | draw s n rand _ ih => exact Inv_draw s n rand ih

theorem runDraws_spec (script : List (Nat × (Nat → Nat × Nat))) :
    ∀ s : TarotSession, Inv s →
      Inv (runDraws s script) ∧
      (runDraws s script).drawn_cards.length =
        min (s.drawn_cards.length + (script.map Prod.fst).sum) 78 := by
  induction script with
  | nil =>
    intro s hs
    refine ⟨hs, ?_⟩
    have h2 := hs.2
    simp only [runDraws, List.map_nil, List.sum_nil, Nat.add_zero]
    omega
  | cons q rest ih =>
    intro s hs
    simp only [runDraws, List.map_cons, List.sum_cons]
    obtain ⟨h1, h2⟩ := ih (draw_cards s q.1 q.2).2 (Inv_draw s q.1 q.2 hs)
    refine ⟨h1, ?_⟩
    obtain ⟨d1, _, d3, _⟩ := draw_cards_spec q.1 s q.2
    rw [h2, d1, List.length_append, d3]
    have hdeck := hs.2
    omega

/-! ### Claim theorems -/

/-- Claim C1: for every sequence of draw requests without an intervening
reset, the drawn history contains no duplicate card identifiers, its length
equals the sum of the requested draw sizes until the deck is exhausted
(in general, the minimum of that sum and 78), and it never exceeds 78. -/
theorem drawn_history_invariant (script : List (Nat × (Nat → Nat × Nat))) :
    ((runDraws initialSession script).drawn_cards.map Prod.fst).Nodup ∧
    (runDraws initialSession script).drawn_cards.length =
      min (script.map Prod.fst).sum 78 ∧
    (runDraws initialSession script).drawn_cards.length ≤ 78 ∧
    ((script.map Prod.fst).sum ≤ 78 →
      (runDraws initialSession script).drawn_cards.length =
        (script.map Prod.fst).sum) := by
  obtain ⟨⟨hn, _⟩, hmin⟩ := runDraws_spec script initialSession Inv_initial
  have hn' := (List.nodup_append.mp hn).1
  have hmin' : (runDraws initialSession script).drawn_cards.length =
      min (script.map Prod.fst).sum 78 := by
    simpa [initialSession, reset_deck] using hmin
  exact ⟨hn', hmin', by omega, fun h => by omega⟩

theorem drawn_history_invariant_witness :
    (([(3, fun _ => (0, 0)), (2, fun _ => (1, 0))] :
        List (Nat × (Nat → Nat × Nat))).map Prod.fst).sum ≤ 78 ∧
    (runDraws initialSession
        [(3, fun _ => (0, 0)), (2, fun _ => (1, 0))]).drawn_cards.length =
      (([(3, fun _ => (0, 0)), (2, fun _ => (1, 0))] :
        List (Nat × (Nat → Nat × Nat))).map Prod.fst).sum :=
  ⟨by decide,
   (drawn_history_invariant [(3, fun _ => (0, 0)), (2, fun _ => (1, 0))]).2.2.2
     (by decide)⟩

/-- Claim C2: when `n` does not exceed the number of remaining cards,
`draw_cards n` returns exactly `n` pairs, each orientation Upright or
Reversed. -/
theorem draw_cards_exact (s : TarotSession) (n : Nat) (rand : Nat → Nat × Nat)
    (h : n ≤ s.deck.length) :
    (draw_cards s n rand).1.length = n ∧
    ∀ p ∈ (draw_cards s n rand).1, p.2 = "Upright" ∨ p.2 = "Reversed" := by
  obtain ⟨_, _, d3, d4⟩ := draw_cards_spec n s rand
  refine ⟨?_, d4⟩
  rw [d3]
  omega

theorem draw_cards_exact_witness :
    3 ≤ initialSession.deck.length ∧
    ((draw_cards initialSession 3 (fun _ => (0, 0))).1.length = 3 ∧
      ∀ p ∈ (draw_cards initialSession 3 (fun _ => (0, 0))).1,
        p.2 = "Upright" ∨ p.2 = "Reversed") :=
  ⟨by decide, draw_cards_exact initialSession 3 (fun _ => (0, 0)) (by decide)⟩

/-- Claim C5: when `n` exceeds the number of remaining cards, `draw_cards n`
stops early and returns exactly the remaining cards (the returned card
identifiers are a permutation of the prior deck), leaving an empty deck and
appending precisely the returned pairs to the drawn history; no failure is
signalled (the function returns normally; the source only prints a notice). -/
theorem draw_cards_exhaustion (s : TarotSession) (n : Nat) (rand : Nat → Nat × Nat)
    (h : s.deck.length < n) :
    (draw_cards s n rand).1.length = s.deck.length ∧
    ((draw_cards s n rand).1.map Prod.fst).Perm s.deck ∧
    (draw_cards s n rand).2.deck = [] ∧
    (draw_cards s n rand).2.drawn_cards = s.drawn_cards ++ (draw_cards s n rand).1 := by
  obtain ⟨d1, d2, d3, _⟩ := draw_cards_spec n s rand
  have hlen : (draw_cards s n rand).1.length = s.deck.length := by
    rw [d3]
    omega
  have hd2len := d2.length_eq
  have hnil : (draw_cards s n rand).2.deck = [] := by
    have hz : (draw_cards s n rand).2.deck.length = 0 := by
      simp only [List.length_append, List.length_map] at hd2len
      omega
    exact List.length_eq_zero.mp hz
  refine ⟨hlen, ?_, hnil, d1⟩
  have hperm := d2
  rw [hnil] at hperm
  simpa using hperm

theorem draw_cards_exhaustion_witness :
    (TarotSession.mk ["Death", "The Sun"] []).deck.length < 5 ∧
    ((draw_cards (TarotSession.mk ["Death", "The Sun"] []) 5 (fun _ => (0, 0))).1.length =
        (TarotSession.mk ["Death", "The Sun"] []).deck.length ∧
      ((draw_cards (TarotSession.mk ["Death", "The Sun"] []) 5 (fun _ => (0, 0))).1.map
          Prod.fst).Perm (TarotSession.mk ["Death", "The Sun"] []).deck ∧
      (draw_cards (TarotSession.mk ["Death", "The Sun"] []) 5 (fun _ => (0, 0))).2.deck = [] ∧
      (draw_cards (TarotSession.mk ["Death", "The Sun"] []) 5 (fun _ => (0, 0))).2.drawn_cards =
        (TarotSession.mk ["Death", "The Sun"] []).drawn_cards ++
          (draw_cards (TarotSession.mk ["Death", "The Sun"] []) 5 (fun _ => (0, 0))).1) :=
  ⟨by decide,
   draw_cards_exhaustion (TarotSession.mk ["Death", "The Sun"] []) 5 (fun _ => (0, 0))
     (by decide)⟩

/-- Claim C8: immediately after `reset_deck`, the deck is the full fixed
78-card list (22 major plus 56 minor arcana), with 78 pairwise-distinct
identifiers, and the drawn history is empty. -/
theorem reset_deck_spec (s : TarotSession) :
    (reset_deck s).deck = fullDeck ∧
    (reset_deck s).deck.length = 78 ∧
    (reset_deck s).deck.Nodup ∧
    (reset_deck s).drawn_cards = [] := by
  refine ⟨rfl, ?_, ?_, rfl⟩
  · show fullDeck.length = 78
    decide
  · show fullDeck.Nodup
    decide

/-- Claim C9: in every state reachable from a fresh or reset session by
`draw_cards` calls, the drawn card identifiers are disjoint from the
remaining deck, and remaining cards plus history length equal 78. -/
theorem reachable_disjoint (s : TarotSession) (h : Reachable s) :
    (∀ c ∈ s.drawn_cards.map Prod.fst, c ∉ s.deck) ∧
    s.deck.length + s.drawn_cards.length = 78 := by
  obtain ⟨h1, h2⟩ := reachable_inv h
  have hd := (List.nodup_append.mp h1).2.2
  exact ⟨fun c hc hcd => hd hc hcd, h2⟩

theorem reachable_disjoint_witness :
    Reachable initialSession ∧
    ((∀ c ∈ initialSession.drawn_cards.map Prod.fst, c ∉ initialSession.deck) ∧
      initialSession.deck.length + initialSession.drawn_cards.length = 78) :=
  ⟨Reachable.init, reachable_disjoint initialSession Reachable.init⟩

/-- Claim C10: for `n ≤ 0` (the Python parameter is an `int`, and
`range(n)` is then empty), `draw_cards` returns the empty list and leaves
the session state unchanged. -/
theorem draw_cards_int_nonpos (s : TarotSession) (n : Int) (rand : Nat → Nat × Nat)
    (h : n ≤ 0) :
    draw_cards_int s n rand = ([], s) := by
  unfold draw_cards_int
  rw [Int.toNat_of_nonpos h]
  rfl

theorem draw_cards_int_nonpos_witness :
    (-2 : Int) ≤ 0 ∧ draw_cards_int initialSession (-2) (fun _ => (0, 0)) = ([], initialSession) :=
  ⟨by decide, draw_cards_int_nonpos initialSession (-2) (fun _ => (0, 0)) (by decide)⟩

/-- `getD` distributes over `zipWith` at any in-bounds index. -/
theorem zipWith_getD (f : String → String × String → ReadingEntry) :
    ∀ (l1 : List String) (l2 : List (String × String)) (i : Nat),
      i < l1.length → i < l2.length →
      (List.zipWith f l1 l2).getD i default = f (l1.getD i "") (l2.getD i ("", "")) := by
  intro l1
  induction l1 with
  | nil =>
    intro l2 i h1 h2
    simp at h1
  | cons a l1 ih =>
    intro l2 i h1 h2
    cases l2 with
    | nil => simp at h2
    | cons b l2 =>
      cases i with
      | zero => rfl
      | succ i =>
        simp only [List.zipWith_cons_cons, List.getD_cons_succ]
        exact ih l2 i (by simpa using h1) (by simpa using h2)

/-- Sample reference tables used to instantiate the lookup and assembly
theorems at concrete inputs. -/
def sampleTables : Tables :=
  { tarot_card_meanings := [("The Fool", [("Upright", "A new beginning")])],
    spread_layouts := [("Three Card", Layout.mk ["Past", "Present", "Future"])],
    numerology_data := [],
    color_theory_data := [],
    hidden_meanings_data := [] }

/-- Claim C3: when the layout is found and the drawn-pair count matches its
position count, `create_reading` succeeds with one record per index in input
order: record `i` carries the position label at index `i`, the card and
orientation at index `i`, and the four interpretation-lookup results for
that card and orientation. -/
theorem create_reading_ok (T : Tables) (drawn : List (String × String))
    (layout_name : String) (layout : Layout)
    (hfind : T.spread_layouts.lookup layout_name = some layout)
    (hlen : drawn.length = layout.positions.length) :
    ∃ reading, create_reading T drawn layout_name = Except.ok reading ∧
      reading.length = drawn.length ∧
      ∀ i, i < drawn.length →
        (reading.getD i default).position = layout.positions.getD i "" ∧
        (reading.getD i default).card = (drawn.getD i ("", "")).1 ∧
        (reading.getD i default).orientation = (drawn.getD i ("", "")).2 ∧
        (reading.getD i default).meaning =
          interpret_card T.tarot_card_meanings (drawn.getD i ("", "")).1
            (drawn.getD i ("", "")).2 ∧
        (reading.getD i default).hiddenSymbols = hiddenSymbolsOf T (drawn.getD i ("", "")).1 ∧
        (reading.getD i default).numerology = numerologyOf T (drawn.getD i ("", "")).1 ∧
        (reading.getD i default).colorTheory = colorTheoryOf T (drawn.getD i ("", "")).1 := by
  refine ⟨List.zipWith (readingEntry T) layout.positions drawn, ?_, ?_, ?_⟩
  · simp [create_reading, hfind, hlen]
  · simp [hlen]
  · intro i hi
    have h1 : i < layout.positions.length := by omega
    rw [zipWith_getD (readingEntry T) layout.positions drawn i h1 hi]
    exact ⟨rfl, rfl, rfl, rfl, rfl, rfl, rfl⟩

theorem create_reading_ok_witness :
    sampleTables.spread_layouts.lookup "Three Card" =
      some (Layout.mk ["Past", "Present", "Future"]) ∧
    ([("The Fool", "Upright"), ("Death", "Reversed"), ("The Sun", "Upright")] :
        List (String × String)).length =
      (Layout.mk ["Past", "Present", "Future"]).positions.length ∧
    (((create_reading sampleTables
          [("The Fool", "Upright"), ("Death", "Reversed"), ("The Sun", "Upright")]
          "Three Card").toOption.getD []).getD 0 default).position = "Past" ∧
    (((create_reading sampleTables
          [("The Fool", "Upright"), ("Death", "Reversed"), ("The Sun", "Upright")]
          "Three Card").toOption.getD []).getD 0 default).card = "The Fool" ∧
    (((create_reading sampleTables
          [("The Fool", "Upright"), ("Death", "Reversed"), ("The Sun", "Upright")]
          "Three Card").toOption.getD []).getD 0 default).orientation = "Upright" ∧
    (∃ reading,
      create_reading sampleTables
          [("The Fool", "Upright"), ("Death", "Reversed"), ("The Sun", "Upright")]
          "Three Card" = Except.ok reading ∧
      reading.length =
        ([("The Fool", "Upright"), ("Death", "Reversed"), ("The Sun", "Upright")] :
          List (String × String)).length ∧
      ∀ i, i < ([("The Fool", "Upright"), ("Death", "Reversed"), ("The Sun", "Upright")] :
          List (String × String)).length →
        (reading.getD i default).position =
          (Layout.mk ["Past", "Present", "Future"]).positions.getD i "" ∧
        (reading.getD i default).card =
          (([("The Fool", "Upright"), ("Death", "Reversed"), ("The Sun", "Upright")] :
            List (String × String)).getD i ("", "")).1 ∧
        (reading.getD i default).orientation =
          (([("The Fool", "Upright"), ("Death", "Reversed"), ("The Sun", "Upright")] :
            List (String × String)).getD i ("", "")).2 ∧
        (reading.getD i default).meaning =
          interpret_card sampleTables.tarot_card_meanings
            (([("The Fool", "Upright"), ("Death", "Reversed"), ("The Sun", "Upright")] :
              List (String × String)).getD i ("", "")).1
            (([("The Fool", "Upright"), ("Death", "Reversed"), ("The Sun", "Upright")] :
              List (String × String)).getD i ("", "")).2 ∧
        (reading.getD i default).hiddenSymbols =
          hiddenSymbolsOf sampleTables
            (([("The Fool", "Upright"), ("Death", "Reversed"), ("The Sun", "Upright")] :
              List (String × String)).getD i ("", "")).1 ∧
        (reading.getD i default).numerology =
          numerologyOf sampleTables
            (([("The Fool", "Upright"), ("Death", "Reversed"), ("The Sun", "Upright")] :
              List (String × String)).getD i ("", "")).1 ∧
        (reading.getD i default).colorTheory =
          colorTheoryOf sampleTables
            (([("The Fool", "Upright"), ("Death", "Reversed"), ("The Sun", "Upright")] :
              List (String × String)).getD i ("", "")).1) :=
  ⟨by decide, by decide, by decide, by decide, by decide,
   create_reading_ok sampleTables
     [("The Fool", "Upright"), ("Death", "Reversed"), ("The Sun", "Upright")]
     "Three Card" (Layout.mk ["Past", "Present", "Future"]) (by decide) (by decide)⟩

/-- Claim C4 counterexample: with the three-position layout "Three Card" and
two drawn pairs, `create_reading` fails with the message
"Three Card layout requires exactly 3 cards.", which does not contain the
digit 2 anywhere — so the failure does not name the actual count. -/
theorem create_reading_mismatch_counterexample :
    create_reading sampleTables [("The Fool", "Upright"), ("Death", "Reversed")]
        "Three Card" = Except.error (countMismatchMsg "Three Card" 3) ∧
    (Char.ofNat 50) ∉ (countMismatchMsg "Three Card" 3).data := by
  constructor
  · rfl
  · decide

/-- Claim C4 (amended): with a known layout and a drawn-pair count different
from its position count, `create_reading` fails with the count-mismatch
message, which names the layout and the expected count (the actual count does
not appear in the message). -/
theorem create_reading_mismatch (T : Tables) (drawn : List (String × String))
    (layout_name : String) (layout : Layout)
    (hfind : T.spread_layouts.lookup layout_name = some layout)
    (hlen : drawn.length ≠ layout.positions.length) :
    create_reading T drawn layout_name =
      Except.error (countMismatchMsg layout_name layout.positions.length) := by
  simp [create_reading, hfind, hlen]

theorem create_reading_mismatch_witness :
    sampleTables.spread_layouts.lookup "Three Card" =
      some (Layout.mk ["Past", "Present", "Future"]) ∧
    ([("The Fool", "Upright"), ("Death", "Reversed")] :
        List (String × String)).length ≠
      (Layout.mk ["Past", "Present", "Future"]).positions.length ∧
    create_reading sampleTables [("The Fool", "Upright"), ("Death", "Reversed")]
        "Three Card" =
      Except.error (countMismatchMsg "Three Card"
        (Layout.mk ["Past", "Present", "Future"]).positions.length) :=
  ⟨by decide, by decide,
   create_reading_mismatch sampleTables [("The Fool", "Upright"), ("Death", "Reversed")]
     "Three Card" (Layout.mk ["Past", "Present", "Future"]) (by decide) (by decide)⟩

/-- Claim C6: for a layout name absent from the layout table,
`create_reading` fails with the layout-not-defined message and never returns
a reading. -/
theorem create_reading_unknown_layout (T : Tables) (drawn : List (String × String))
    (layout_name : String) (h : T.spread_layouts.lookup layout_name = none) :
    create_reading T drawn layout_name =
      Except.error (layoutNotDefinedMsg layout_name) := by
  simp [create_reading, h]

theorem create_reading_unknown_layout_witness :
    sampleTables.spread_layouts.lookup "Celtic Cross" = none ∧
    create_reading sampleTables [("The Fool", "Upright")] "Celtic Cross" =
      Except.error (layoutNotDefinedMsg "Celtic Cross") :=
  ⟨by decide,
   create_reading_unknown_layout sampleTables [("The Fool", "Upright")] "Celtic Cross"
     (by decide)⟩

/-- Claim C7: each of the four lookups is a total function, and on a missing
key each returns its fixed fallback string: the meaning lookup falls back to
"No meaning found." both when the card is absent and when the card is present
but the orientation is absent; the hidden-symbol, numerology and color-theory
lookups fall back to their respective placeholder when the card is absent. -/
theorem lookups_total_fallback (T : Tables) (card orientation : String) :
    (T.tarot_card_meanings.lookup card = none →
      interpret_card T.tarot_card_meanings card orientation = "No meaning found.") ∧
    (∀ m, T.tarot_card_meanings.lookup card = some m → m.lookup orientation = none →
      interpret_card T.tarot_card_meanings card orientation = "No meaning found.") ∧
    (T.hidden_meanings_data.lookup card = none →
      hiddenSymbolsOf T card = "No hidden symbols found.") ∧
    (T.numerology_data.lookup card = none →
      numerologyOf T card = "No numerology found.") ∧
    (T.color_theory_data.lookup card = none →
      colorTheoryOf T card = "No color theory found.") := by
  refine ⟨fun h => ?_, fun m hm ho => ?_, fun h => ?_, fun h => ?_, fun h => ?_⟩ <;>
    simp [interpret_card, hiddenSymbolsOf, numerologyOf, colorTheoryOf, *]

theorem lookups_total_fallback_witness :
    sampleTables.tarot_card_meanings.lookup "Death" = none ∧
    interpret_card sampleTables.tarot_card_meanings "Death" "Upright" =
      "No meaning found." ∧
    sampleTables.tarot_card_meanings.lookup "The Fool" =
      some [("Upright", "A new beginning")] ∧
    ([("Upright", "A new beginning")] : List (String × String)).lookup "Sideways" = none ∧
    interpret_card sampleTables.tarot_card_meanings "The Fool" "Sideways" =
      "No meaning found." ∧
    sampleTables.hidden_meanings_data.lookup "Death" = none ∧
    hiddenSymbolsOf sampleTables "Death" = "No hidden symbols found." ∧
    sampleTables.numerology_data.lookup "Death" = none ∧
    numerologyOf sampleTables "Death" = "No numerology found." ∧
    sampleTables.color_theory_data.lookup "Death" = none ∧
    colorTheoryOf sampleTables "Death" = "No color theory found." :=
  ⟨by decide,
   (lookups_total_fallback sampleTables "Death" "Upright").1 (by decide),
   by decide, by decide,
   (lookups_total_fallback sampleTables "The Fool" "Sideways").2.1
     [("Upright", "A new beginning")] (by decide) (by decide),
   by decide,
   (lookups_total_fallback sampleTables "Death" "Upright").2.2.1 (by decide),
   by decide,
   (lookups_total_fallback sampleTables "Death" "Upright").2.2.2.1 (by decide),
   by decide,
   (lookups_total_fallback sampleTables "Death" "Upright").2.2.2.2 (by decide)⟩

end TarotCopilot
